import Mathlib

-- Mathlib marks the core rational arithmetic operations irreducible; re-open
-- them so that concrete grid evaluations can be settled by kernel reduction.
unseal Rat.mul Rat.inv Rat.add Rat.sub

/-!
# MetalVegetation — shallow embedding and verification

A shallow embedding, over exact rationals, of the trample-map interaction
subsystem and the grass deformation/shading pipeline of the MetalVegetation
repository:

* the compute kernel `updateTrampleMap` (src/unnamed/part_006);
* the per-frame ping-pong buffer handling in `Renderer::draw`
  (src/unnamed/part_004, around lines 791-819 and 881-885);
* the grass vertex and fragment stages (src/src/Shaders.metal).

Machine floats are modelled as exact rationals (`ℚ`).  The Metal library
calls `length`/`normalize` involve a square root; where a *comparison*
`length v < r` is embedded we use its exact square-free characterisation
`0 < r ∧ dot v v < r * r`, and where a normalised *value* flows onward the
transcendental operations (`sin`, `cos`, `atan2`, `sqrt`) are abstracted as
oracle parameters so that the data flow of the shader is kept intact.
-/

namespace MetalVegetation

/-- A 2-component vector (Metal `float2`), exact-rational model. -/
structure Vec2 where
  x : ℚ
  y : ℚ
deriving DecidableEq, Repr

/-- A 3-component vector (Metal `float3`), exact-rational model. -/
structure Vec3 where
  x : ℚ
  y : ℚ
  z : ℚ
deriving DecidableEq, Repr

instance : Sub Vec3 := ⟨fun a b => ⟨a.x - b.x, a.y - b.y, a.z - b.z⟩⟩
instance : Add Vec3 := ⟨fun a b => ⟨a.x + b.x, a.y + b.y, a.z + b.z⟩⟩

/-- Componentwise scaling of a `float3` by a scalar. -/
def Vec3.scale (k : ℚ) (v : Vec3) : Vec3 := ⟨k * v.x, k * v.y, k * v.z⟩

/-- Metal `dot` for `float3`. -/
def dot3 (a b : Vec3) : ℚ := a.x * b.x + a.y * b.y + a.z * b.z

/-- Metal `cross` for `float3`. -/
def cross3 (a b : Vec3) : Vec3 :=
  ⟨a.y * b.z - a.z * b.y, a.z * b.x - a.x * b.z, a.x * b.y - a.y * b.x⟩

/-- Squared length of a `float3` (`dot(v, v)`); `length v = sqrt` of this. -/
def lengthSq3 (v : Vec3) : ℚ := v.x * v.x + v.y * v.y + v.z * v.z

/-- Squared planar length of a `float2`. -/
def lengthSq2 (vx vy : ℚ) : ℚ := vx * vx + vy * vy

/-- Metal `mix(a, b, t) = a + (b - a) * t`. -/
def mixQ (a b t : ℚ) : ℚ := a + (b - a) * t

/-- Metal `max` on scalars, written out so that the kernel can evaluate it
on concrete rationals. -/
def maxQ (a b : ℚ) : ℚ := if a ≤ b then b else a

/-- Metal `min` on scalars. -/
def minQ (a b : ℚ) : ℚ := if a ≤ b then a else b

/-- Metal `clamp`. -/
def clampQ (v lo hi : ℚ) : ℚ := minQ (maxQ v lo) hi

/-- Metal `saturate`. -/
def saturateQ (v : ℚ) : ℚ := clampQ v 0 1

/-- Metal `smoothstep(e0, e1, x)`: Hermite interpolation of the clamped
normalised parameter.  Exact in `ℚ` (the division is rational). -/
def smoothstepQ (e0 e1 x : ℚ) : ℚ :=
  let t := clampQ ((x - e0) / (e1 - e0)) 0 1
  t * t * (3 - 2 * t)

/-- Metal `fract(x) = x - floor(x)`; exact in `ℚ`. -/
def fractQ (x : ℚ) : ℚ := x - Rat.floor x

/-- A 4-component vector (Metal `float4`), exact-rational model. -/
structure Vec4 where
  x : ℚ
  y : ℚ
  z : ℚ
  w : ℚ
deriving DecidableEq, Repr

/-- A 4x4 matrix (Metal `float4x4`) stored as its four columns, as Metal
constructs it (`float4x4(col0, col1, col2, col3)`). -/
structure Mat4 where
  c0 : Vec4
  c1 : Vec4
  c2 : Vec4
  c3 : Vec4
deriving DecidableEq, Repr

/-- Matrix-vector product `m * v` with column-major columns, as in Metal. -/
def Mat4.apply (m : Mat4) (v : Vec4) : Vec4 :=
  ⟨m.c0.x * v.x + m.c1.x * v.y + m.c2.x * v.z + m.c3.x * v.w,
   m.c0.y * v.x + m.c1.y * v.y + m.c2.y * v.z + m.c3.y * v.w,
   m.c0.z * v.x + m.c1.z * v.y + m.c2.z * v.z + m.c3.z * v.w,
   m.c0.w * v.x + m.c1.w * v.y + m.c2.w * v.z + m.c3.w * v.w⟩

/-- The identity `float4x4`, used for concrete witnesses. -/
def idMat4 : Mat4 :=
  ⟨⟨1, 0, 0, 0⟩, ⟨0, 1, 0, 0⟩, ⟨0, 0, 1, 0⟩, ⟨0, 0, 0, 1⟩⟩

/-- The fields of `struct Uniforms` (src/src/ShaderTypes.h) consumed by the
trample kernel and the grass shaders.  Matrices are carried for the
clip-space transform of the vertex stage. -/
structure Uniforms where
  viewMatrix : Mat4
  projectionMatrix : Mat4
  time : ℚ
  cameraPosition : Vec3
  sunDirection : Vec3
  sunColor : Vec3
  interactorPos : Vec3
  interactorRadius : ℚ
  ballWorldPos : Vec3
  ballRadius : ℚ
  groundMinXZ : Vec2
  groundMaxXZ : Vec2
  dt : ℚ
  trampleDecayRate : ℚ
  showTrampleMap : ℚ
  flattenBandWidth : ℚ
  flattenStrength : ℚ
  contactShadowRadius : ℚ
  contactShadowStrength : ℚ
deriving Repr

/-- A trample texture: cell values indexed by texel coordinates.
`texture2d<float, access::read/write>` of src/unnamed/part_006, with the
red channel holding the trample value. -/
def Grid : Type := ℕ → ℕ → ℚ

/-- The all-zero texture: both ping-pong maps start at zero
(`Renderer::buildTrampleMaps`, src/unnamed/part_004). -/
def zeroGrid : Grid := fun _ _ => 0

/-- The world XZ position the kernel assigns to texel `(gx, gy)` of a
`w × h` trample texture (src/unnamed/part_006 lines 21 and 34):
`uv = float2(gid) / float2(w, h)`, then
`worldXZ = mix(groundMinXZ, groundMaxXZ, uv)`. -/
def cellWorld (u : Uniforms) (w h gx gy : ℕ) : ℚ × ℚ :=
  (mixQ u.groundMinXZ.x u.groundMaxXZ.x ((gx : ℚ) / (w : ℚ)),
   mixQ u.groundMinXZ.y u.groundMaxXZ.y ((gy : ℚ) / (h : ℚ)))

/-- The hard-edge stamp test of the kernel (src/unnamed/part_006 lines
36-43): `length(worldXZ - ballWorldPos.xz) < ballRadius`.  Embedded by the
exact square-free characterisation of the square-root comparison:
`sqrt d < r ↔ 0 < r ∧ d < r * r` for `d ≥ 0`. -/
def stampHit (u : Uniforms) (w h gx gy : ℕ) : Bool :=
  let p := cellWorld u w h gx gy
  let toBallX := p.1 - u.ballWorldPos.x
  let toBallZ := p.2 - u.ballWorldPos.z
  let distSq := lengthSq2 toBallX toBallZ
  decide (0 < u.ballRadius) && decide (distSq < u.ballRadius * u.ballRadius)

/-- Body of the compute kernel `updateTrampleMap` (src/unnamed/part_006
lines 20-49) for one in-bounds texel: decay then hard-edge ball stamp. -/
def updateTrampleCell (u : Uniforms) (w h : ℕ) (input : Grid) (gx gy : ℕ) : ℚ :=
  let currentTrample := input gx gy
  let decayedTrample := maxQ 0 (currentTrample - u.trampleDecayRate * u.dt)
  let stamp : ℚ := if stampHit u w h gx gy then 1 else 0
  maxQ decayedTrample stamp

/-- The compute kernel `updateTrampleMap` (src/unnamed/part_006) as a map
from the input texture to the output texture of size `w × h`.  A thread
with `gid.x >= width || gid.y >= height` returns without writing (lines
16-18); such texels do not exist on the real texture, so outside the
bounds the output is left as the input. -/
def updateTrampleMap (u : Uniforms) (w h : ℕ) (input : Grid) : Grid :=
  fun gx gy =>
    if gx < w ∧ gy < h then updateTrampleCell u w h input gx gy else input gx gy

/-! ## Renderer::draw — per-frame trample ping-pong (src/unnamed/part_004) -/

/-- The renderer state that drives the trample ping-pong: the boolean flag
`m_trampleMapSwap` and the contents of the two textures `m_trampleMapA` and
`m_trampleMapB` (all from src/unnamed/part_004; the flag starts `false` and
both maps start at zero). -/
structure TrampleBuffers where
  swapFlag : Bool
  mapA : Grid
  mapB : Grid

/-- One frame of `Renderer::draw` restricted to the trample-map data flow
(src/unnamed/part_004):

* lines 792-793: `inputTexture  = m_trampleMapSwap ? B : A`,
  `outputTexture = m_trampleMapSwap ? A : B`;
* the compute dispatch runs `updateTrampleMap` from the input texture into
  the output texture;
* line 819: `m_trampleMapSwap = !m_trampleMapSwap`;
* line 882 (grass pass): `currentTrampleMap = m_trampleMapSwap ? A : B` is
  bound as the grass fragment stage's trample texture.

Returns the post-frame buffer state together with the grid the grass
fragment shader samples this frame. -/
def drawFrame (u : Uniforms) (w h : ℕ) (st : TrampleBuffers) : TrampleBuffers × Grid :=
  let inputTexture := if st.swapFlag then st.mapB else st.mapA
  let outputTexture := updateTrampleMap u w h inputTexture
  let mapA' := if st.swapFlag then outputTexture else st.mapA
  let mapB' := if st.swapFlag then st.mapB else outputTexture
  let swapFlag' := ! st.swapFlag
  let currentTrampleMap := if swapFlag' then mapA' else mapB'
  (⟨swapFlag', mapA', mapB'⟩, currentTrampleMap)

/-! ## Fragment stage (src/src/Shaders.metal, `fragmentMain`) -/

/-- The fragment stage's inverse affine map from a world XZ position into
trample-field UV space (src/src/Shaders.metal line 288):
`trampleUV = (worldXZ - groundMinXZ) / (groundMaxXZ - groundMinXZ)`. -/
def trampleUV (u : Uniforms) (wx wz : ℚ) : ℚ × ℚ :=
  ((wx - u.groundMinXZ.x) / (u.groundMaxXZ.x - u.groundMinXZ.x),
   (wz - u.groundMinXZ.y) / (u.groundMaxXZ.y - u.groundMinXZ.y))

/-- The texel a UV coordinate lands on under nearest sampling of a texture
with `n` texels along the axis: texel space is `uv * n`, and the nearest
texel index is its floor. -/
def nearestTexel (n : ℕ) (uv : ℚ) : ℤ :=
  Rat.floor (uv * (n : ℚ))

/-- The discard decisions of `fragmentMain` (src/src/Shaders.metal lines
283-319) as a function of the bilinearly sampled trample value, the sampled
alpha, and `px = fwidth(alpha)`:

* lines 295-298: `if (trample > 0.5) discard_fragment();`
* lines 309-319: `opacity = smoothstep(0.5 - px, 0.5 + px, alpha);`
  `if (opacity < 0.1) discard_fragment();`

Returns `true` exactly when the fragment is discarded (not shaded). -/
def fragmentDiscards (trample alpha px : ℚ) : Bool :=
  if 1/2 < trample then
    true
  else
    let opacity := smoothstepQ (1/2 - px) (1/2 + px) alpha
    decide (opacity < 1/10)

/-! ## Vertex stage (src/src/Shaders.metal, `vertexMain`)

The transcendental Metal library functions have no exact rational value, so
they enter the embedding as an oracle of uninterpreted functions; every
rational computation of the shader (arithmetic, `mix`, `fract`, `floor`,
comparisons, the sequencing of assignments) is embedded exactly.  All
claims proved over `vertexMain` hold for every oracle, hence in particular
for the real `sin`/`cos`/`atan2`/`sqrt`. -/

/-- Oracle for Metal's transcendental library functions. -/
structure MathOracle where
  sinO : ℚ → ℚ
  cosO : ℚ → ℚ
  atan2O : ℚ → ℚ → ℚ
  sqrtO : ℚ → ℚ

/-- `float random(float seed)` (src/src/Shaders.metal lines 19-21):
`fract(sin(seed * 12.9898) * 43758.5453)`. -/
def randomO (M : MathOracle) (seed : ℚ) : ℚ :=
  fractQ (M.sinO (seed * (129898/10000)) * (437585453/10000))

/-- `float hash(uint instanceID)` (lines 24-26):
`random(float(instanceID) * 0.12345 + 500.0)`. -/
def hashO (M : MathOracle) (instanceID : ℕ) : ℚ :=
  randomO M ((instanceID : ℚ) * (12345/100000) + 500)

/-- `float noise2D(float2 p)` (lines 31-44): bilinear smooth noise over an
integer lattice of sine hashes. -/
def noise2DO (M : MathOracle) (px py : ℚ) : ℚ :=
  let ix : ℚ := Rat.floor px
  let iy : ℚ := Rat.floor py
  let fx := fractQ px
  let fy := fractQ py
  let ux := fx * fx * (3 - 2 * fx)
  let uy := fy * fy * (3 - 2 * fy)
  let magicX : ℚ := 129898/10000
  let magicY : ℚ := 78233/1000
  let a := fractQ (M.sinO (ix * magicX + iy * magicY) * (437585453/10000))
  let b := fractQ (M.sinO ((ix + 1) * magicX + iy * magicY) * (437585453/10000))
  let c := fractQ (M.sinO (ix * magicX + (iy + 1) * magicY) * (437585453/10000))
  let d := fractQ (M.sinO ((ix + 1) * magicX + (iy + 1) * magicY) * (437585453/10000))
  mixQ (mixQ a b ux) (mixQ c d ux) uy

/-- Per-instance variation (lines 47-65): random rotation in `[0, 2π)` and
random scale in `[0.8, 1.2)`. -/
structure InstanceVariation where
  rotation : ℚ
  scale : ℚ

/-- `getInstanceVariation` (lines 53-65). -/
def getInstanceVariation (M : MathOracle) (instanceID : ℕ) : InstanceVariation :=
  let rand1 := randomO M (instanceID : ℚ)
  let rand2 := randomO M ((instanceID : ℚ) * (1/2) + 100)
  ⟨rand1 * (628318/100000), 8/10 + rand2 * (4/10)⟩

/-- `getInitialTilt` (lines 74-78): `(random(id * 0.7 + 300.0) - 0.5) * 0.5236`,
i.e. a tilt angle in `[-15°, +15°)` in radians. -/
def getInitialTilt (M : MathOracle) (instanceID : ℕ) : ℚ :=
  let rand := randomO M ((instanceID : ℚ) * (7/10) + 300)
  (rand - 1/2) * (5236/10000)

/-- Application of `rotationY(angle)` (lines 81-90) to the xyz of a vector:
with `c = cos angle`, `s = sin angle` the columns give
`x' = c*x + s*z`, `y' = y`, `z' = -s*x + c*z`. -/
def rotYApply (c s : ℚ) (v : Vec3) : Vec3 :=
  ⟨c * v.x + s * v.z, v.y, -s * v.x + c * v.z⟩

/-- `rotateVector` (lines 93-97), the Rodrigues rotation formula:
`v * cos a + axis * dot(axis, v) * (1 - cos a) + cross(axis, v) * sin a`. -/
def rotateVectorO (M : MathOracle) (v axis : Vec3) (angle : ℚ) : Vec3 :=
  let s := M.sinO angle
  let c := M.cosO angle
  Vec3.scale c v + Vec3.scale (dot3 axis v * (1 - c)) axis +
    Vec3.scale s (cross3 axis v)

/-- The initial-tilt transform of `vertexMain` (lines 135-144), for
`c = cos(initialTiltAngle)`, `s = sin(initialTiltAngle)` and
`axisLow = (tiltAxisChoice < 0.5)`.  The two component updates are
sequential assignments to `vertexPosition`, so the second assignment reads
the component value the first one has already overwritten, exactly as the
Metal source executes:

    vertexPosition.y = vertexPosition.y * c - vertexPosition.z * s;
    vertexPosition.z = vertexPosition.y * s + vertexPosition.z * c;

(and symmetrically for the x/y branch). -/
def initialTiltStep (c s : ℚ) (axisLow : Bool) (p : Vec3) : Vec3 :=
  if axisLow then
    let y' := p.y * c - p.z * s
    let z' := y' * s + p.z * c
    ⟨p.x, y', z'⟩
  else
    let x' := p.x * c - p.y * s
    let y' := x' * s + p.y * c
    ⟨x', y', p.z⟩

/-- Metal `normalize` via the square-root oracle:
`normalize(v) = v / length(v)`. -/
def normalizeO (M : MathOracle) (v : Vec3) : Vec3 :=
  Vec3.scale (1 / M.sqrtO (lengthSq3 v)) v

/-- Metal `normalize` on a `float2` via the square-root oracle. -/
def normalize2O (M : MathOracle) (px py : ℚ) : ℚ × ℚ :=
  let len := M.sqrtO (lengthSq2 px py)
  (px / len, py / len)

/-- `struct Vertex` (src/src/ShaderTypes.h). -/
structure Vertex where
  position : Vec3
  normal : Vec3
  texcoord : ℚ × ℚ

/-- `struct InstanceData` (src/src/ShaderTypes.h): one model matrix per
grass blade. -/
structure InstanceData where
  modelMatrix : Mat4

/-- `struct RasterizerData` (src/src/Shaders.metal lines 7-16): the vertex
stage's full output. -/
structure RasterizerData where
  position : Vec4
  texcoord : ℚ × ℚ
  normal : Vec3
  worldPos : Vec3
  instanceHash : ℚ
  windStrength : ℚ
  isYellow : ℚ
  influence : ℚ

/-- The argument of the unguarded `normalize` on src/src/Shaders.metal line
124: `uniforms.cameraPosition - instanceWorldPos`. -/
def billboardToCamera (u : Uniforms) (instanceWorldPos : Vec3) : Vec3 :=
  u.cameraPosition - instanceWorldPos

/-- `vertexMain` (src/src/Shaders.metal lines 102-272), translated
statement by statement; transcendental library calls go through the oracle
`M`, everything else is exact. -/
def vertexMain (M : MathOracle) (u : Uniforms) (vertices : ℕ → Vertex)
    (instances : ℕ → InstanceData) (vertexID instanceID : ℕ) : RasterizerData :=
  -- 1. Get Base Instance World Position (lines 113-117)
  let inst := instances instanceID
  let instanceWorldPos : Vec3 :=
    ⟨inst.modelMatrix.c3.x, inst.modelMatrix.c3.y, inst.modelMatrix.c3.z⟩
  -- 2. Randomization & Attributes (lines 120-121)
  let variation := getInstanceVariation M instanceID
  let randomRotation := variation.rotation
  -- 3. Billboard Rotation Calculation (lines 124-128)
  let toCamera := normalizeO M (billboardToCamera u instanceWorldPos)
  let toCameraXZ := normalizeO M ⟨toCamera.x, 0, toCamera.z⟩
  let billboardAngle := M.atan2O toCameraXZ.x toCameraXZ.z
  let finalRotation := billboardAngle + randomRotation
  let bc := M.cosO finalRotation
  let bs := M.sinO finalRotation
  -- 4. Vertex Setup (lines 131-133)
  let vertexPosition0 := (vertices vertexID).position
  let texcoord := (vertices vertexID).texcoord
  let t := 1 - texcoord.2
  -- 5. Initial Tilt (lines 136-145)
  let initialTiltAngle := getInitialTilt M instanceID
  let tiltAxisChoice := hashO M instanceID
  let c := M.cosO initialTiltAngle
  let s := M.sinO initialTiltAngle
  let vertexPosition1 := initialTiltStep c s (decide (tiltAxisChoice < 1/2)) vertexPosition0
  let vertexPosition2 := Vec3.scale variation.scale vertexPosition1
  -- 6. Define Initial World Position (lines 148-149)
  let rotatedPos := rotYApply bc bs vertexPosition2
  let finalWorldPos0 := instanceWorldPos + rotatedPos
  -- Wind physics (lines 156-198)
  let tTime := u.time
  let seed := (instanceID : ℚ)
  let idleFreq := 2 + hashO M instanceID * (3/2)
  let idlePhase := seed * 13
  let idleStrength := M.sinO (tTime * idleFreq + idlePhase) * (8/100)
  let windDir := normalize2O M 1 (1/2)
  let swellPhase := instanceWorldPos.x * windDir.1 + instanceWorldPos.z * windDir.2
  let rawSine := M.sinO (swellPhase * (5/100) - tTime * 1)
  let mainSwell := rawSine * (65/100) + 35/100
  let noiseUVx := instanceWorldPos.x * (2/10) - windDir.1 * tTime * 2
  let noiseUVy := instanceWorldPos.z * (2/10) - windDir.2 * tTime * 2
  let turbulence := noise2DO M noiseUVx noiseUVy - 2/10
  let fluidWind := mixQ mainSwell turbulence (3/10)
  let totalWindStrength := fluidWind + idleStrength
  let bendAngle := totalWindStrength * t * (12/10)
  let axisJitter := (hashO M instanceID - 1/2) * (2/10)
  let windVector3D := normalizeO M ⟨windDir.1, 0, windDir.2⟩
  let jitteredWind :=
    normalizeO M (windVector3D + Vec3.scale axisJitter ⟨windDir.2, 0, -windDir.1⟩)
  let upVector : Vec3 := ⟨0, 1, 0⟩
  let bendAxis := normalizeO M (cross3 upVector jitteredWind)
  -- 6'. Apply Rodrigues Rotation to geometry (lines 201-203)
  let localPos := rotateVectorO M (finalWorldPos0 - instanceWorldPos) bendAxis bendAngle
  let finalWorldPos1 := instanceWorldPos + localPos
  -- Rotate normals (lines 211-219)
  let forwardLocal : Vec3 := ⟨0, 0, 1⟩
  let initialNormal := rotYApply bc bs forwardLocal
  let rotatedNormal := rotateVectorO M initialNormal bendAxis bendAngle
  let stylizedNormal :=
    normalizeO M (Vec3.scale (6/10) rotatedNormal + Vec3.scale (6/10) upVector)
  -- Soft flatten ring (lines 225-246)
  let dRing := M.sqrtO (lengthSq2 (finalWorldPos1.x - u.ballWorldPos.x)
                                  (finalWorldPos1.z - u.ballWorldPos.z))
  let ring := smoothstepQ (u.ballRadius + u.flattenBandWidth) u.ballRadius dRing
  let heightW0 := saturateQ t
  let heightW := heightW0 * heightW0
  let finalWorldPos2 :=
    if 1/1000 < ring then
      let rootWorldPos := instanceWorldPos
      let flatten := ring * heightW * u.flattenStrength
      rootWorldPos + Vec3.scale (1 - flatten) (finalWorldPos1 - rootWorldPos)
    else finalWorldPos1
  -- Trample map system now handles grass clipping in the fragment shader;
  -- influence is set to 0.0 (lines 248-252)
  let influenceOut : ℚ := 0
  -- Pass output (lines 254-269)
  let windStrengthOut := maxQ 0 fluidWind
  let pos := Mat4.apply u.projectionMatrix
    (Mat4.apply u.viewMatrix ⟨finalWorldPos2.x, finalWorldPos2.y, finalWorldPos2.z, 1⟩)
  let yellowHash := hashO M (instanceID * 7 + 1000)
  { position := pos
    texcoord := texcoord
    normal := stylizedNormal
    worldPos := finalWorldPos2
    instanceHash := hashO M instanceID
    windStrength := windStrengthOut
    isYellow := if 9/10 < yellowHash then 1 else 0
    influence := influenceOut }

/-- Metal `normalize(v) = v / length(v)` divides by zero — producing NaN
components — exactly when `v` has length zero; no call site in
src/src/Shaders.metal guards against this.  This predicate marks the
NaN-producing inputs. -/
def normalizeProducesNaN (v : Vec3) : Bool :=
  decide (lengthSq3 v = 0)

/-! ## Concrete scenario values -/

/-- The spec's concrete 4×4 scenario: world bounds `[-1,1]×[-1,1]`,
interactor at the origin with radius `0.6`, `decayRate = 1.0`,
`dt = 0.1`. -/
def uScenario : Uniforms :=
  { viewMatrix := idMat4, projectionMatrix := idMat4,
    time := 0, cameraPosition := ⟨0, 0, 0⟩, sunDirection := ⟨0, 1, 0⟩,
    sunColor := ⟨1, 1, 1⟩, interactorPos := ⟨0, 0, 0⟩, interactorRadius := 3/5,
    ballWorldPos := ⟨0, 0, 0⟩, ballRadius := 3/5,
    groundMinXZ := ⟨-1, -1⟩, groundMaxXZ := ⟨1, 1⟩,
    dt := 1/10, trampleDecayRate := 1,
    showTrampleMap := 0, flattenBandWidth := 0, flattenStrength := 3/4,
    contactShadowRadius := 0, contactShadowStrength := 0 }

/-- The spec's far-away interactor scenario: interactor at `(5, 5)` with
radius `0.6`, `decayRate = 1.0`, `dt = 0.5`. -/
def uFar : Uniforms :=
  { viewMatrix := idMat4, projectionMatrix := idMat4,
    time := 0, cameraPosition := ⟨0, 0, 0⟩, sunDirection := ⟨0, 1, 0⟩,
    sunColor := ⟨1, 1, 1⟩, interactorPos := ⟨5, 0, 5⟩, interactorRadius := 3/5,
    ballWorldPos := ⟨5, 0, 5⟩, ballRadius := 3/5,
    groundMinXZ := ⟨-1, -1⟩, groundMaxXZ := ⟨1, 1⟩,
    dt := 1/2, trampleDecayRate := 1,
    showTrampleMap := 0, flattenBandWidth := 0, flattenStrength := 3/4,
    contactShadowRadius := 0, contactShadowStrength := 0 }

/-- The 4×4 scenario frozen in time: `dt = 0` with a stationary
interactor. -/
def uStill : Uniforms := { uScenario with dt := 0 }

/-- A uniforms value whose camera sits exactly at a blade instance position
`(0, 1.5, 0)`. -/
def uCamAtBlade : Uniforms := { uScenario with cameraPosition := ⟨0, 3/2, 0⟩ }

/-! ## General lemmas -/

theorem maxQ_eq (a b : ℚ) : maxQ a b = max a b := by
  unfold maxQ
  rcases le_total a b with h | h
  · rw [if_pos h, max_eq_right h]
  · rcases eq_or_lt_of_le h with rfl | h'
    · simp
    · rw [if_neg (not_le.mpr h'), max_eq_left h]

theorem minQ_eq (a b : ℚ) : minQ a b = min a b := by
  unfold minQ
  rcases le_total a b with h | h
  · rw [if_pos h, min_eq_left h]
  · rcases eq_or_lt_of_le h with rfl | h'
    · simp
    · rw [if_neg (not_le.mpr h'), min_eq_right h]

theorem Vec3.sub_def (a b : Vec3) : a - b = ⟨a.x - b.x, a.y - b.y, a.z - b.z⟩ := rfl

/-- An in-bounds cell of the updated trample map is never negative. -/
theorem updateTrampleCell_nonneg (u : Uniforms) (w h : ℕ) (g : Grid) (gx gy : ℕ) :
    0 ≤ updateTrampleCell u w h g gx gy := by
  simp only [updateTrampleCell, maxQ_eq]
  exact le_trans (le_max_left 0 _) (le_max_left _ _)

/-- An in-bounds cell of the updated trample map never exceeds 1 when the
input cell is at most 1 and `decayRate * dt ≥ 0`. -/
theorem updateTrampleCell_le_one (u : Uniforms) (w h : ℕ) (g : Grid) (gx gy : ℕ)
    (hdt : 0 ≤ u.dt) (hrate : 0 ≤ u.trampleDecayRate) (hg1 : g gx gy ≤ 1) :
    updateTrampleCell u w h g gx gy ≤ 1 := by
  have hc : 0 ≤ u.trampleDecayRate * u.dt := mul_nonneg hrate hdt
  simp only [updateTrampleCell, maxQ_eq]
  apply max_le
  · exact max_le (by norm_num) (by linarith)
  · split <;> norm_num

/-- Away from the stamp, an in-bounds cell can only decay: the updated
value is at most the input value (for a nonnegative input cell). -/
theorem updateTrampleCell_decay_le (u : Uniforms) (w h : ℕ) (g : Grid) (gx gy : ℕ)
    (hdt : 0 ≤ u.dt) (hrate : 0 ≤ u.trampleDecayRate) (hg0 : 0 ≤ g gx gy)
    (hmiss : stampHit u w h gx gy = false) :
    updateTrampleCell u w h g gx gy ≤ g gx gy := by
  have hc : 0 ≤ u.trampleDecayRate * u.dt := mul_nonneg hrate hdt
  simp only [updateTrampleCell, maxQ_eq, hmiss, Bool.false_eq_true, if_false]
  exact max_le (max_le hg0 (by linarith)) hg0

/-- Pointwise `[0, 1]` preservation for the whole updated map. -/
theorem updateTrampleMap_mem_unit (u : Uniforms) (w h : ℕ) (g : Grid) (gx gy : ℕ)
    (hdt : 0 ≤ u.dt) (hrate : 0 ≤ u.trampleDecayRate)
    (hg0 : 0 ≤ g gx gy) (hg1 : g gx gy ≤ 1) :
    0 ≤ updateTrampleMap u w h g gx gy ∧ updateTrampleMap u w h g gx gy ≤ 1 := by
  unfold updateTrampleMap
  by_cases hb : gx < w ∧ gy < h
  · rw [if_pos hb]
    exact ⟨updateTrampleCell_nonneg u w h g gx gy,
           updateTrampleCell_le_one u w h g gx gy hdt hrate hg1⟩
  · rw [if_neg hb]
    exact ⟨hg0, hg1⟩

/-- Folding any list of per-frame updates over a grid keeps every cell in
`[0, 1]`. -/
theorem foldl_update_mem_unit (w h : ℕ) (us : List Uniforms) (g : Grid)
    (hus : ∀ u ∈ us, 0 ≤ u.dt ∧ 0 ≤ u.trampleDecayRate)
    (hg : ∀ gx gy, 0 ≤ g gx gy ∧ g gx gy ≤ 1) :
    ∀ gx gy, 0 ≤ (us.foldl (fun gr u => updateTrampleMap u w h gr) g) gx gy ∧
             (us.foldl (fun gr u => updateTrampleMap u w h gr) g) gx gy ≤ 1 := by
  induction us generalizing g with
  | nil => exact hg
  | cons u us ih =>
    simp only [List.foldl_cons]
    refine ih (updateTrampleMap u w h g) (fun v hv => hus v (List.mem_cons_of_mem u hv)) ?_
    intro gx gy
    have hu := hus u (List.mem_cons_self u us)
    exact updateTrampleMap_mem_unit u w h g gx gy hu.1 hu.2 (hg gx gy).1 (hg gx gy).2

/-- With `dt = 0` the update is idempotent on whole grids. -/
theorem updateTrampleMap_idem (u : Uniforms) (w h : ℕ) (g : Grid) (hdt : u.dt = 0) :
    updateTrampleMap u w h (updateTrampleMap u w h g) = updateTrampleMap u w h g := by
  funext gx gy
  by_cases hb : gx < w ∧ gy < h
  · simp only [updateTrampleMap, updateTrampleCell, if_pos hb, hdt, mul_zero,
      sub_zero, maxQ_eq]
    rw [max_eq_right (le_trans (le_max_left 0 _) (le_max_left _ _)), max_assoc, max_self]
  · simp only [updateTrampleMap, if_neg hb]

/-- One axis of the bounds-mapping round trip: mapping texel `i` of `n` to
world (as the kernel does) and back to UV (as the fragment stage does),
the nearest texel is `i` again. -/
theorem roundTrip_axis (mn mx : ℚ) (n i : ℕ) (hi : i < n) (hb : mn < mx) :
    Rat.floor (((mixQ mn mx ((i : ℚ) / (n : ℚ)) - mn) / (mx - mn)) * (n : ℚ)) = i := by
  have hn : (0 : ℚ) < (n : ℚ) := by
    exact_mod_cast Nat.pos_of_ne_zero (Nat.not_eq_zero_of_lt hi)
  have hne : mx - mn ≠ 0 := sub_ne_zero.mpr (ne_of_gt hb)
  have hval : (mixQ mn mx ((i : ℚ) / (n : ℚ)) - mn) / (mx - mn) * (n : ℚ) = (i : ℚ) := by
    unfold mixQ
    field_simp
    ring
  rw [hval, (Rat.floor_def' _).trans Rat.floor_def.symm, Int.floor_natCast]

/-- The boolean stamp test of the kernel embedding agrees with the real
square-root comparison `length(worldXZ - ballCenterXZ) < ballRadius` that
the Metal source computes. -/
theorem stampHit_iff_sqrt (u : Uniforms) (w h gx gy : ℕ) :
    stampHit u w h gx gy = true ↔
      Real.sqrt ((((cellWorld u w h gx gy).1 - u.ballWorldPos.x : ℚ) : ℝ) ^ 2 +
          (((cellWorld u w h gx gy).2 - u.ballWorldPos.z : ℚ) : ℝ) ^ 2)
        < (u.ballRadius : ℝ) := by
  unfold stampHit
  simp only [Bool.and_eq_true, decide_eq_true_eq, lengthSq2]
  set dx : ℚ := (cellWorld u w h gx gy).1 - u.ballWorldPos.x with hdx
  set dz : ℚ := (cellWorld u w h gx gy).2 - u.ballWorldPos.z with hdz
  have hcast : ((dx : ℝ) ^ 2 + (dz : ℝ) ^ 2) = ((dx * dx + dz * dz : ℚ) : ℝ) := by
    push_cast
    ring
  rw [hcast]
  constructor
  · rintro ⟨hr, hlt⟩
    have hr' : (0 : ℝ) < (u.ballRadius : ℝ) := by exact_mod_cast hr
    rw [Real.sqrt_lt' hr', pow_two]
    exact_mod_cast hlt
  · intro hlt
    have hr : (0 : ℚ) < u.ballRadius := by
      by_contra hle
      push_neg at hle
      have h0 : (u.ballRadius : ℝ) ≤ 0 := by exact_mod_cast hle
      exact absurd (lt_of_le_of_lt (Real.sqrt_nonneg _) hlt) (not_lt.mpr h0)
    refine ⟨hr, ?_⟩
    have hr' : (0 : ℝ) < (u.ballRadius : ℝ) := by exact_mod_cast hr
    rw [Real.sqrt_lt' hr', pow_two] at hlt
    exact_mod_cast hlt

/-! ## Claims -/

/-- C1: for every in-bounds grid cell, one application of the trample
update writes `nextGrid[cell] = max(decayed, stamp)` with
`decayed = max(0, currentGrid[cell] - decayRate * dt)` and `stamp = 1` iff
the planar (XZ) distance from the cell's mapped world position to the
interactor's XZ position is strictly less than the interactor radius
(`ballRadius`, which `Renderer::draw` sets equal to `interactorRadius`),
else `stamp = 0`. -/
theorem updateTrampleMap_decay_stamp_max (u : Uniforms) (w h : ℕ) (g : Grid)
    (gx gy : ℕ) (hx : gx < w) (hy : gy < h)
    (hir : u.ballRadius = u.interactorRadius) :
    updateTrampleMap u w h g gx gy =
      max (max 0 (g gx gy - u.trampleDecayRate * u.dt))
        (if Real.sqrt ((((cellWorld u w h gx gy).1 - u.ballWorldPos.x : ℚ) : ℝ) ^ 2 +
              (((cellWorld u w h gx gy).2 - u.ballWorldPos.z : ℚ) : ℝ) ^ 2)
            < (u.interactorRadius : ℝ) then 1 else 0) := by
  have hcond := stampHit_iff_sqrt u w h gx gy
  rw [hir] at hcond
  simp only [updateTrampleMap, updateTrampleCell, if_pos (And.intro hx hy)]
  rw [maxQ_eq, maxQ_eq]
  congr 1
  by_cases hs : stampHit u w h gx gy = true
  · rw [if_pos hs, if_pos (hcond.mp hs)]
  · rw [if_neg hs, if_neg (fun hr => hs (hcond.mpr hr))]

/-- Witness for C1: the spec's far-interactor scenario — interactor at
`(5,5)` with radius `0.6`, a `1×1` grid previously at `0.8`, `dt = 0.5`,
`decayRate = 1.0` — yields `max(0.8 - 0.5, 0) = 0.3`. -/
theorem updateTrampleMap_decay_stamp_max_witness :
    updateTrampleMap uFar 1 1 (fun _ _ => 4/5) 0 0 = 3/10 := by
  rw [updateTrampleMap_decay_stamp_max uFar 1 1 (fun _ _ => 4/5) 0 0
    (by decide) (by decide) rfl]
  rw [show ((uFar.interactorRadius : ℝ)) = ((uFar.ballRadius : ℝ)) from rfl]
  rw [if_neg (fun hr =>
    absurd ((stampHit_iff_sqrt uFar 1 1 0 0).mpr hr)
      (by decide : ¬ stampHit uFar 1 1 0 0 = true))]
  have h1 : (4/5 : ℚ) - uFar.trampleDecayRate * uFar.dt = 3/10 := by
    norm_num [uFar]
  rw [h1]
  rw [max_eq_right (by norm_num : (0:ℚ) ≤ 3/10)]
  exact max_eq_left (by norm_num)

/-- C2: in every frame the trample compute pass reads one ping-pong buffer
and writes the other, and the swap flag toggles afterwards — but the
texture then bound for the grass fragment stage is the buffer the update
*read from* (the stale, pre-update buffer), never the buffer it just
wrote.  First conjunct: for every frame and state, the grid the grass
shader samples equals the pre-update input buffer.  Second conjunct, on
the concrete 4×4 scenario starting from zeroed buffers with the swap flag
`false`: the update writes `1.0` into buffer B at cell `(2,2)`, while the
buffer the grass stage samples still holds `0.0` there. -/
theorem drawFrame_grass_samples_stale_buffer :
    (∀ (u : Uniforms) (w h : ℕ) (st : TrampleBuffers),
      (drawFrame u w h st).2 = (if st.swapFlag then st.mapB else st.mapA)) ∧
    ((drawFrame uScenario 4 4 ⟨false, zeroGrid, zeroGrid⟩).1.mapB 2 2 = 1 ∧
     (drawFrame uScenario 4 4 ⟨false, zeroGrid, zeroGrid⟩).2 2 2 = 0) := by
  refine ⟨fun u w h st => ?_, by decide, by decide⟩
  cases hb : st.swapFlag <;> simp [drawFrame, hb]

/-- C3 counterexample: a fragment whose sampled trample value is `0.4` — at
or below the kill threshold `0.5` — is nevertheless discarded (not
shaded/visible) when its sampled alpha is `0`, because of the later
opacity test `opacity < 0.1` of `fragmentMain`. -/
theorem fragment_clip_counterexample :
    ((2:ℚ)/5 ≤ 1/2) ∧ fragmentDiscards (2/5) 0 (1/10) = true := by
  decide

/-- C3 amended: a fragment whose sampled trample value strictly exceeds
`0.5` is always discarded; one at or below `0.5` passes the trample clip
and is then discarded exactly when its derivative-smoothed alpha opacity
`smoothstep(0.5 - fwidth, 0.5 + fwidth, alpha)` is below the floor
`0.1`. -/
theorem fragment_clip_spec (trample alpha px : ℚ) :
    (1/2 < trample → fragmentDiscards trample alpha px = true) ∧
    (trample ≤ 1/2 →
      (fragmentDiscards trample alpha px = true ↔
        smoothstepQ (1/2 - px) (1/2 + px) alpha < 1/10)) := by
  constructor
  · intro h
    unfold fragmentDiscards
    rw [if_pos h]
  · intro h
    simp only [fragmentDiscards, if_neg (not_lt.mpr h), decide_eq_true_eq]

/-- Witness for C3 (amended): a fragment with sampled trample value `0.6`
(strictly above the threshold) is discarded. -/
theorem fragment_clip_spec_witness :
    ((1:ℚ)/2 < 3/5) ∧ fragmentDiscards (3/5) 0 (1/10) = true :=
  ⟨by norm_num, (fragment_clip_spec (3/5) 0 (1/10)).1 (by norm_num)⟩

/-- C4 counterexample: in the spec's concrete 4×4 scenario the claim's
"four center cells" of the grid are `(1,1), (1,2), (2,1), (2,2)`; but one
trample update leaves center cell `(1,1)` at `0.0` (its mapped world
position `(-0.5, -0.5)` lies at distance `√0.5 > 0.6` from the origin),
while the non-center cell `(3,2)` is set to `1.0`. -/
theorem scenario4x4_counterexample :
    updateTrampleMap uScenario 4 4 zeroGrid 1 1 = 0 ∧
    updateTrampleMap uScenario 4 4 zeroGrid 3 2 = 1 := by
  decide

/-- C4 amended: in the 4×4 scenario one trample update sets exactly the
five cells `(1,2), (2,1), (2,2), (2,3), (3,2)` — the cells whose mapped
world coordinates (`world = -1 + gid/2`, since the kernel maps
`uv = gid/4` from the texel origin, not the texel center) fall within
radius `0.6` of the origin — to `1.0`, and leaves every other cell,
including the four corners, at `0.0`. -/
theorem scenario4x4_amended :
    ∀ gx gy : Fin 4,
      updateTrampleMap uScenario 4 4 zeroGrid gx.val gy.val =
        (if (gx.val, gy.val) ∈ [(1, 2), (2, 1), (2, 2), (2, 3), (3, 2)] then 1 else 0) := by
  decide

/-- C5: the trample field stays in `[0, 1]`.  First conjunct: for `dt ≥ 0`
and `decayRate ≥ 0`, one update maps a cell in `[0, 1]` back into
`[0, 1]`.  Second conjunct: at a cell the stamp does not hit (not inside
the interactor radius), the value is monotonically non-increasing.  Third
conjunct: starting from the zeroed grid, any sequence of updates (each
with `dt ≥ 0` and `decayRate ≥ 0`, arbitrary interactor poses) leaves
every cell in `[0, 1]`. -/
theorem trampleField_unit_interval (w h : ℕ) :
    (∀ (u : Uniforms) (g : Grid) (gx gy : ℕ),
        0 ≤ u.dt → 0 ≤ u.trampleDecayRate → 0 ≤ g gx gy → g gx gy ≤ 1 →
        0 ≤ updateTrampleMap u w h g gx gy ∧ updateTrampleMap u w h g gx gy ≤ 1) ∧
    (∀ (u : Uniforms) (g : Grid) (gx gy : ℕ),
        0 ≤ u.dt → 0 ≤ u.trampleDecayRate → 0 ≤ g gx gy →
        stampHit u w h gx gy = false →
        updateTrampleMap u w h g gx gy ≤ g gx gy) ∧
    (∀ us : List Uniforms, (∀ u ∈ us, 0 ≤ u.dt ∧ 0 ≤ u.trampleDecayRate) →
        ∀ gx gy : ℕ,
          0 ≤ (us.foldl (fun gr u => updateTrampleMap u w h gr) zeroGrid) gx gy ∧
          (us.foldl (fun gr u => updateTrampleMap u w h gr) zeroGrid) gx gy ≤ 1) := by
  refine ⟨fun u g gx gy hdt hrate hg0 hg1 =>
      updateTrampleMap_mem_unit u w h g gx gy hdt hrate hg0 hg1,
    fun u g gx gy hdt hrate hg0 hmiss => ?_,
    fun us hus => foldl_update_mem_unit w h us zeroGrid hus (fun gx gy => by
      constructor <;> norm_num [zeroGrid])⟩
  unfold updateTrampleMap
  by_cases hb : gx < w ∧ gy < h
  · rw [if_pos hb]
    exact updateTrampleCell_decay_le u w h g gx gy hdt hrate hg0 hmiss
  · rw [if_neg hb]

/-- Witness for C5: the 4×4 scenario update keeps cell `(2,2)` in
`[0, 1]`, and a two-frame history from the zeroed grid keeps cell `(1,1)`
in `[0, 1]`. -/
theorem trampleField_unit_interval_witness :
    (0 ≤ updateTrampleMap uScenario 4 4 zeroGrid 2 2 ∧
      updateTrampleMap uScenario 4 4 zeroGrid 2 2 ≤ 1) ∧
    (0 ≤ ([uScenario, uFar].foldl (fun gr u => updateTrampleMap u 4 4 gr) zeroGrid) 1 1 ∧
      ([uScenario, uFar].foldl (fun gr u => updateTrampleMap u 4 4 gr) zeroGrid) 1 1 ≤ 1) :=
  ⟨(trampleField_unit_interval 4 4).1 uScenario zeroGrid 2 2
      (by decide) (by decide) (by decide) (by decide),
   (trampleField_unit_interval 4 4).2.2 [uScenario, uFar] (by decide) 1 1⟩

/-- C6: with `dt = 0` and a stationary interactor (the same uniforms every
frame) the update is idempotent — after the first application, every
further application leaves the whole grid (hence every cell)
unchanged. -/
theorem updateTrampleMap_idempotent_dt_zero (u : Uniforms) (w h : ℕ) (g : Grid)
    (hdt : u.dt = 0) (n : ℕ) :
    (updateTrampleMap u w h)^[n] (updateTrampleMap u w h g) = updateTrampleMap u w h g :=
  Function.iterate_fixed (updateTrampleMap_idem u w h g hdt) n

/-- Witness for C6: three further `dt = 0` updates of the 4×4 scenario
leave the once-updated zero grid unchanged. -/
theorem updateTrampleMap_idempotent_dt_zero_witness :
    (updateTrampleMap uStill 4 4)^[3] (updateTrampleMap uStill 4 4 zeroGrid) =
      updateTrampleMap uStill 4 4 zeroGrid :=
  updateTrampleMap_idempotent_dt_zero uStill 4 4 zeroGrid rfl 3

/-- C7: for every in-bounds cell index, mapping the grid index to a world
XZ coordinate (linear interpolation between the configured min/max world
bounds, as the update kernel does) and mapping that world coordinate back
into UV space (the fragment stage's inverse affine mapping) and taking the
nearest texel recovers the original index, provided the bounds are
non-degenerate (`min < max` on both axes). -/
theorem cellWorld_roundTrip (u : Uniforms) (w h gx gy : ℕ)
    (hx : gx < w) (hy : gy < h)
    (hbx : u.groundMinXZ.x < u.groundMaxXZ.x)
    (hby : u.groundMinXZ.y < u.groundMaxXZ.y) :
    nearestTexel w (trampleUV u (cellWorld u w h gx gy).1 (cellWorld u w h gx gy).2).1 = gx ∧
    nearestTexel h (trampleUV u (cellWorld u w h gx gy).1 (cellWorld u w h gx gy).2).2 = gy := by
  constructor
  · exact roundTrip_axis u.groundMinXZ.x u.groundMaxXZ.x w gx hx hbx
  · exact roundTrip_axis u.groundMinXZ.y u.groundMaxXZ.y h gy hy hby

/-- Witness for C7: cell `(2, 1)` of the 4×4 scenario grid round-trips
through world space and back to itself. -/
theorem cellWorld_roundTrip_witness :
    nearestTexel 4 (trampleUV uScenario (cellWorld uScenario 4 4 2 1).1
        (cellWorld uScenario 4 4 2 1).2).1 = 2 ∧
    nearestTexel 4 (trampleUV uScenario (cellWorld uScenario 4 4 2 1).1
        (cellWorld uScenario 4 4 2 1).2).2 = 1 :=
  cellWorld_roundTrip uScenario 4 4 2 1 (by decide) (by decide) (by decide) (by decide)

/-- C8 counterexample: the billboard `normalize` on src/src/Shaders.metal
line 124 carries no minimum-epsilon guard — with the camera placed exactly
at a blade's instance position `(0, 1.5, 0)` it receives the zero-length
vector and produces NaN. -/
theorem normalize_guard_counterexample :
    normalizeProducesNaN (billboardToCamera uCamAtBlade ⟨0, 3/2, 0⟩) = true := by
  decide

/-- C8 amended: the normalize-like operations of the deformation and
shading math are *not* guarded by a minimum-epsilon substitution.
Whenever the camera coincides with a blade's instance position, the
billboard direction `normalize(cameraPosition - instanceWorldPos)` (line
124) receives a zero-length vector and produces NaN; likewise the
XZ-projected normalize (line 125) on any vertical offset. -/
theorem normalize_unguarded (u : Uniforms) (p : Vec3) (hcam : u.cameraPosition = p)
    (v : Vec3) (hvx : v.x = 0) (hvz : v.z = 0) :
    normalizeProducesNaN (billboardToCamera u p) = true ∧
    normalizeProducesNaN ⟨v.x, 0, v.z⟩ = true := by
  constructor
  · rw [billboardToCamera, hcam, Vec3.sub_def]
    simp [normalizeProducesNaN, lengthSq3]
  · rw [hvx, hvz]
    decide

/-- Witness for C8 (amended): concrete camera-at-blade input and a
concrete vertical camera offset. -/
theorem normalize_unguarded_witness :
    normalizeProducesNaN (billboardToCamera uCamAtBlade ⟨0, 3/2, 0⟩) = true ∧
    normalizeProducesNaN ⟨(0 : ℚ), 0, 0⟩ = true :=
  normalize_unguarded uCamAtBlade ⟨0, 3/2, 0⟩ rfl ⟨0, 1, 0⟩ rfl rfl

/-- C9: the initial-tilt step of `vertexMain` is not a rotation and does
not preserve the vertex position's length.  With the per-instance tilt
angle whose cosine/sine pair is `(40/41, 9/41)` — an exact point of the
unit circle at about `12.7°`, inside the claimed `±15°` range — the X-axis
branch maps the unit vertex position `(0, 1, 0)` to
`(0, 40/41, 360/1681)` of squared length `2819200/2825761 < 1`, because
line 141 of src/src/Shaders.metal computes the new `z` from the already
overwritten `y`. -/
theorem initialTiltStep_breaks_length :
    ((40 : ℚ)/41) * (40/41) + (9/41) * (9/41) = 1 ∧
    initialTiltStep (40/41) (9/41) true ⟨0, 1, 0⟩ = ⟨0, 40/41, 360/1681⟩ ∧
    lengthSq3 (initialTiltStep (40/41) (9/41) true ⟨0, 1, 0⟩) = 2819200/2825761 ∧
    lengthSq3 (⟨0, 1, 0⟩ : Vec3) = 1 := by
  decide

/-- C10: for every oracle, uniforms, vertex table, instance table and
vertex/instance index, the vertex stage's `influence` output (the
interaction crush factor) is identically `0.0`: the trample field never
deforms vertex positions. -/
theorem vertexMain_influence_zero (M : MathOracle) (u : Uniforms)
    (vertices : ℕ → Vertex) (instances : ℕ → InstanceData)
    (vertexID instanceID : ℕ) :
    (vertexMain M u vertices instances vertexID instanceID).influence = 0 := rfl

end MetalVegetation
